import Mathlib

/-!
Verification of the Tillie backend's inventory-ledger and order logic.

The definitions below are a shallow embedding of the Django application:

* `inventory/models.py` — `Product.save` (automatic `initial_stock` ledger
  entry on creation) and the `Inventory` ledger row;
* `inventory/views.py` — `InventoryListCreateView.perform_create` (movement
  recording with the stock-mutation rule), `InventoryDetailView`
  (retrieve/update/destroy of ledger entries), `ProductListCreateView` /
  `ProductDetailView` (product creation and stock updates);
* `orders/views.py` — `OrderDetailView.perform_update` / `destroy`
  (temporal lock);
* `orders/serializers.py` — `OrderCreateSerializer` field validation.

Machine integers are modelled as `Int` (Python integers are unbounded and the
database columns are plain integer fields); time is modelled as an `Int`
number of seconds passed explicitly to the operations that read the clock.
Fallible request handlers return `Except`.
-/

/-- The `CHANGE_TYPES` enumeration of `inventory/models.py`.  The source's
`return` kind is spelled `ret` here because `return` is a Lean keyword. -/
inductive ChangeType where
  | addition
  | removal
  | adjustment
  | ret
  | transfer
  | initial_stock

deriving Repr, DecidableEq

/-- A `shop.Shop` row: `owner` is the id of the owning account. -/
structure Shop where
  id : Nat
  owner : Nat

deriving Repr, DecidableEq

/-- An `inventory.Product` row (the fields the ledger logic touches). -/
structure Product where
  id : Nat
  shop_id : Nat
  stock_quantity : Int

deriving Repr, DecidableEq

/-- An `inventory.Inventory` ledger row.  `user_id` is nullable. -/
structure Inventory where
  id : Nat
  shop_id : Nat
  product_id : Nat
  quantity : Int
  change_type : ChangeType
  notes : String
  user_id : Option Nat

deriving Repr, DecidableEq

/-- The authenticated account attached to a request (`request.user`):
`shop_id` is the nullable shop foreign key of `authentication.CustomUser`. -/
structure Actor where
  id : Nat
  shop_id : Option Nat
  is_staff : Bool

deriving Repr, DecidableEq

/-- The relational store, restricted to the tables the claims mention.
`nextProductId` / `nextEntryId` model the database's auto-assigned
primary keys. -/
structure State where
  shops : List Shop
  products : List Product
  entries : List Inventory
  nextProductId : Nat
  nextEntryId : Nat

deriving Repr, DecidableEq

def findShop (st : State) (sid : Nat) : Option Shop :=
  st.shops.find? (fun s => s.id == sid)

def findProduct (st : State) (pid : Nat) : Option Product :=
  st.products.find? (fun p => p.id == pid)

def findEntry (st : State) (eid : Nat) : Option Inventory :=
  st.entries.find? (fun e => e.id == eid)

/-- Embedding of `Product.save` on a fresh instance (`self.pk is None`):
insert the row
and, when `stock_quantity > 0`, create the automatic `initial_stock` ledger
entry with `user_id = self.shop_id.owner` (`inventory/models.py`, lines
25–42). -/
def productSaveNew (st : State) (shop : Shop) (stock : Int) : State :=
  let pid := st.nextProductId
  let p : Product := ⟨pid, shop.id, stock⟩
  let st1 : State := { st with products := st.products ++ [p],
                               nextProductId := pid + 1 }
  if stock > 0 then
    let e : Inventory :=
      ⟨st1.nextEntryId, shop.id, pid, stock, ChangeType.initial_stock,
       "Initial stock entry", some shop.owner⟩
    { st1 with entries := st1.entries ++ [e],
               nextEntryId := st1.nextEntryId + 1 }
  else st1

/-- Embedding of `Product.save` on an existing instance (`self.pk` set): plain row
update, no ledger side effect (`is_new` is false). -/
def productSaveUpdate (st : State) (p : Product) : State :=
  { st with products := st.products.map (fun q => if q.id == p.id then p else q) }

/-- Product creation as driven through the API: resolve the shop and run
`Product.save` on a fresh instance carrying `stock_quantity = initialStock`.
A missing shop is a (serializer) failure that leaves the store unchanged. -/
def createProduct (st : State) (sid : Nat) (initialStock : Int) : State :=
  match findShop st sid with
  | none => st
  | some shop => productSaveNew st shop initialStock

/-- The body of a POST to the inventory list endpoint, after field-level
deserialization: the writable fields of `InventorySerializer`. -/
structure InvReq where
  shop_id : Nat
  product_id : Nat
  quantity : Int
  change_type : ChangeType
  notes : String
  user_id : Option Nat

deriving Repr, DecidableEq

/-- Failure modes of the inventory create/update handlers. -/
inductive InvError where
  | badReference
  | insufficientStock
  | notFound

deriving Repr, DecidableEq

/-- Embedding of `InventoryListCreateView.perform_create` (`inventory/views.py`, lines
179–203), together with the serializer's foreign-key resolution:

* `product_id` and `shop_id` must reference existing rows (serializer
  validation);
* for `change_type == 'removal'` with `quantity > 0`, the handler raises
  when `product.stock_quantity < quantity`;
* the product's stock is then updated — `addition` adds `abs(quantity)`,
  `removal` subtracts `abs(quantity)`, `adjustment` sets it to
  `abs(quantity)`, every other change type has no branch — and saved;
* the ledger row is created with `user_id` forced to the requesting
  account (`serializer.save(user_id=self.request.user)`). -/
def performCreateInventory (st : State) (actor : Actor) (req : InvReq) :
    Except InvError State :=
  match findShop st req.shop_id with
  | none => .error .badReference
  | some _ =>
    match findProduct st req.product_id with
    | none => .error .badReference
    | some product =>
      if req.change_type = ChangeType.removal ∧ req.quantity > 0 ∧
          product.stock_quantity < req.quantity then
        .error .insufficientStock
      else
        let newStock : Int :=
          match req.change_type with
          | ChangeType.addition => product.stock_quantity + |req.quantity|
          | ChangeType.removal => product.stock_quantity - |req.quantity|
          | ChangeType.adjustment => |req.quantity|
          | _ => product.stock_quantity
        let st1 := productSaveUpdate st { product with stock_quantity := newStock }
        let e : Inventory :=
          ⟨st1.nextEntryId, req.shop_id, req.product_id, req.quantity,
           req.change_type, req.notes, some actor.id⟩
        .ok { st1 with entries := st1.entries ++ [e],
                       nextEntryId := st1.nextEntryId + 1 }

/-- Tenant-scoped row visibility shared by every `get_queryset` in the
views: staff see all rows, a user with a shop sees that shop's rows, a user
without a shop sees none. -/
def visibleShop (actor : Actor) (rowShop : Nat) : Bool :=
  actor.is_staff || actor.shop_id == some rowShop

/-- A PUT on `ProductDetailView` that changes `stock_quantity`: the object
is fetched through the tenant-scoped queryset and the row is saved with the
submitted stock value; `Product.save` on an existing row creates no ledger
entry.  An object outside the queryset is a 404, leaving the store
unchanged. -/
def updateProductStock (st : State) (actor : Actor) (pid : Nat)
    (newStock : Int) : State :=
  match st.products.find? (fun p => p.id == pid && visibleShop actor p.shop_id) with
  | none => st
  | some p => productSaveUpdate st { p with stock_quantity := newStock }

/-- A PUT on `InventoryDetailView` (`inventory/views.py`, lines 206–215):
the entry is fetched through the tenant-scoped queryset; `InventorySerializer`
resolves the submitted foreign keys; the generic `perform_update` then saves
every writable field from the body (only `date` is read-only, and no stock
logic runs on this path). -/
def updateEntry (st : State) (actor : Actor) (eid : Nat) (req : InvReq) :
    Except InvError State :=
  match st.entries.find? (fun e => e.id == eid && visibleShop actor e.shop_id) with
  | none => .error .notFound
  | some _ =>
    match findShop st req.shop_id with
    | none => .error .badReference
    | some _ =>
      match findProduct st req.product_id with
      | none => .error .badReference
      | some _ =>
        .ok { st with entries := st.entries.map (fun e =>
          if e.id == eid then
            { e with shop_id := req.shop_id, product_id := req.product_id,
                     quantity := req.quantity, change_type := req.change_type,
                     notes := req.notes, user_id := req.user_id }
          else e) }

/-- A DELETE on `InventoryDetailView`: the generic destroy removes the row
fetched through the tenant-scoped queryset.  No stock logic runs. -/
def deleteEntry (st : State) (actor : Actor) (eid : Nat) :
    Except InvError State :=
  match st.entries.find? (fun e => e.id == eid && visibleShop actor e.shop_id) with
  | none => .error .notFound
  | some _ => .ok { st with entries := st.entries.filter (fun e => !(e.id == eid)) }

/-- An `orders.Order` row (time stored as an `Int` number of seconds). -/
structure Order where
  id : Nat
  shop : Nat
  user : Option Nat
  category : Option Nat
  total_items : Int
  delivery_date : Int
  notes : String

deriving Repr, DecidableEq

/-- Failure modes of `OrderDetailView.perform_update` / `destroy`. -/
inductive OrderErr where
  | orderLocked
  | shopImmutable
  | notCreator

deriving Repr, DecidableEq

/-- The validated body of an order update; `none` means the key is absent
from `serializer.validated_data`. -/
structure OrderUpdateReq where
  shop : Option Nat
  total_items : Option Int
  delivery_date : Option Int
  notes : Option String

deriving Repr, DecidableEq

/-- Embedding of `OrderDetailView.perform_update` (`orders/views.py`, lines 61–74):
re-reads the clock, raises when `instance.delivery_date <= timezone.now()`,
then rejects a shop change, then saves the submitted fields. -/
def performUpdateOrder (now : Int) (inst : Order) (req : OrderUpdateReq) :
    Except OrderErr Order :=
  if inst.delivery_date ≤ now then .error .orderLocked
  else
    match req.shop with
    | some s =>
      if s ≠ inst.shop then .error .shopImmutable
      else .ok { inst with shop := s,
                           total_items := req.total_items.getD inst.total_items,
                           delivery_date := req.delivery_date.getD inst.delivery_date,
                           notes := req.notes.getD inst.notes }
    | none =>
      .ok { inst with total_items := req.total_items.getD inst.total_items,
                      delivery_date := req.delivery_date.getD inst.delivery_date,
                      notes := req.notes.getD inst.notes }

/-- Embedding of `OrderDetailView.destroy` (`orders/views.py`, lines 76–93): re-reads the
clock, returns 400 when `instance.delivery_date <= timezone.now()`, then
403 unless the actor is staff or the order's creator. -/
def destroyOrder (now : Int) (actor : Actor) (inst : Order) :
    Except OrderErr Unit :=
  if inst.delivery_date ≤ now then .error .orderLocked
  else if actor.is_staff = false ∧ inst.user ≠ some actor.id then
    .error .notCreator
  else .ok ()

/-- Seconds in 24 hours. -/
def hours24 : Int := 86400

/-- Seconds in 365 days. -/
def days365 : Int := 365 * 86400

/-- Embedding of `OrderCreateSerializer.validate_total_items`: rejects `value <= 0` and
`value > 10000`. -/
def validate_total_items (v : Int) : Bool :=
  if v ≤ 0 then false
  else if v > 10000 then false
  else true

/-- Embedding of `OrderCreateSerializer.validate_delivery_date`: rejects a value below
`now + 24h` or above `now + 365d`. -/
def orderCreateDeliveryOk (now v : Int) : Bool :=
  if v < now + hours24 then false
  else if v > now + days365 then false
  else true

/-- Leading/trailing-whitespace stripping, as the framework's
`trim_whitespace` character-field option performs on input. -/
def strTrim (s : String) : String :=
  String.mk
    (((s.toList.dropWhile Char.isWhitespace).reverse.dropWhile
        Char.isWhitespace).reverse)

/-- The `notes` field on the creation path: `OrderCreateSerializer` declares
no `validate_notes`, so only the model-derived character field applies —
whitespace is trimmed and at most 500 characters are allowed. -/
def orderCreateNotesOk (notes : String) : Bool :=
  (strTrim notes).length ≤ 500

/-- Whether `OrderCreateSerializer.is_valid()` succeeds for a body with the
given `total_items`, `delivery_date` and `notes`, at clock time `now`. -/
def orderCreateIsValid (now totalItems delivery : Int) (notes : String) : Bool :=
  validate_total_items totalItems && orderCreateDeliveryOk now delivery &&
    orderCreateNotesOk notes

/-- One public operation touching the product/ledger tables. -/
inductive Op where
  | createProductOp (sid : Nat) (initialStock : Int)
  | recordMovement (actor : Actor) (req : InvReq)
  | updateProductStockOp (actor : Actor) (pid : Nat) (newStock : Int)
  | updateEntryOp (actor : Actor) (eid : Nat) (req : InvReq)
  | deleteEntryOp (actor : Actor) (eid : Nat)

deriving Repr, DecidableEq

/-- Run one operation against the store; a rejected request rolls back (the
handlers validate before writing). -/
def applyOp (st : State) : Op → State
  | Op.createProductOp sid init => createProduct st sid init
  | Op.recordMovement a req =>
    match performCreateInventory st a req with
    | .ok st' => st'
    | .error _ => st
  | Op.updateProductStockOp a pid s => updateProductStock st a pid s
  | Op.updateEntryOp a eid req =>
    match updateEntry st a eid req with
    | .ok st' => st'
    | .error _ => st
  | Op.deleteEntryOp a eid =>
    match deleteEntry st a eid with
    | .ok st' => st'
    | .error _ => st

def applyOps (st : State) (ops : List Op) : State := ops.foldl applyOp st

/-- A fresh store: the given shops exist, no products and no ledger. -/
def initState (shops : List Shop) : State := ⟨shops, [], [], 1, 1⟩

/-- The sign convention of the spec: `addition`, `return`, `initial_stock`
count positively, `removal` and `transfer` negatively (`adjustment` has no
sum semantics — the spec makes it an absolute set — and is counted by its
stored value here). -/
def signedQuantity (e : Inventory) : Int :=
  match e.change_type with
  | ChangeType.removal => -e.quantity
  | ChangeType.transfer => -e.quantity
  | _ => e.quantity

/-- Sum of the signed quantities of the ledger entries referencing a
product. -/
def ledgerSum (entries : List Inventory) (pid : Nat) : Int :=
  ((entries.filter (fun e => e.product_id == pid)).map signedQuantity).sum

/-- The spec's ledger/stock consistency invariant. -/
def StockInvariant (st : State) : Prop :=
  ∀ p ∈ st.products, p.stock_quantity = ledgerSum st.entries p.id

instance : DecidablePred StockInvariant := fun st =>
  List.decidableBAll _ st.products

/-- The stock arithmetic of `perform_create`, by change type: the three
handled kinds and the silent fall-through for the rest. -/
def viewNewStock (s q : Int) : ChangeType → Int
  | ChangeType.addition => s + |q|
  | ChangeType.removal => s - |q|
  | ChangeType.adjustment => |q|
  | _ => s

deriving instance DecidableEq for Except

/-! Concrete fixtures used by the evaluation theorems. -/

def shop1 : Shop := ⟨1, 100⟩

def shop2 : Shop := ⟨2, 200⟩

/-- A non-staff account assigned to shop 1. -/
def userA : Actor := ⟨7, some 1, false⟩

/-- A staff account with no shop. -/
def staffUser : Actor := ⟨9, none, true⟩

/-- One product of shop 1 holding 3 units. -/
def stLowStock : State := ⟨[shop1], [⟨1, 1, 3⟩], [], 2, 1⟩

/-- One product of shop 1 holding 10 units. -/
def stMidStock : State := ⟨[shop1], [⟨1, 1, 10⟩], [], 2, 1⟩

/-- One product of shop 1 holding 0 units. -/
def stZeroStock : State := ⟨[shop1], [⟨1, 1, 0⟩], [], 2, 1⟩

/-- A product that belongs to shop 2, with both shops present. -/
def stCrossShop : State := ⟨[shop1, shop2], [⟨1, 2, 10⟩], [], 2, 1⟩

/-- One product of shop 1 with one existing ledger entry of quantity 5. -/
def stWithEntry : State :=
  ⟨[shop1], [⟨1, 1, 5⟩], [⟨1, 1, 1, 5, ChangeType.addition, "", some 7⟩], 2, 2⟩

/-- The store produced by a concrete addition of 5 against `stMidStock`. -/
def stAfterAddition : State :=
  ⟨[shop1], [⟨1, 1, 15⟩], [⟨1, 1, 1, 5, ChangeType.addition, "note", some 7⟩], 2, 2⟩

/-- The store after the staff update of the fixture entry to quantity 7. -/
def stAfterEntryUpdate : State :=
  ⟨[shop1], [⟨1, 1, 5⟩], [⟨1, 1, 1, 7, ChangeType.addition, "", some 7⟩], 2, 2⟩

/-- Two public calls: create a product with initial stock 10, then record a
`return` movement of 5 against it. -/
def divergeOps : List Op :=
  [Op.createProductOp 1 10,
   Op.recordMovement userA ⟨1, 1, 5, ChangeType.ret, "", none⟩]

/-- The operations under which the stock/ledger invariant is actually
preserved: product creation with non-negative initial stock, and movements
of type `addition` or `removal` with non-negative quantity. -/
def GoodOp : Op → Prop
  | Op.createProductOp _ init => 0 ≤ init
  | Op.recordMovement _ req => 0 ≤ req.quantity ∧
      (req.change_type = ChangeType.addition ∨
        req.change_type = ChangeType.removal)
  | _ => False

instance : DecidablePred GoodOp := fun op =>
  match op with
  | Op.createProductOp _ init => inferInstanceAs (Decidable (0 ≤ init))
  | Op.recordMovement _ req =>
    inferInstanceAs (Decidable (0 ≤ req.quantity ∧
      (req.change_type = ChangeType.addition ∨
        req.change_type = ChangeType.removal)))
  | Op.updateProductStockOp _ _ _ => inferInstanceAs (Decidable False)
  | Op.updateEntryOp _ _ _ => inferInstanceAs (Decidable False)
  | Op.deleteEntryOp _ _ => inferInstanceAs (Decidable False)

/-- Auxiliary induction invariant: primary keys already handed out are below
the auto-id counter, for products and for the products the entries cite. -/
def IdsFresh (st : State) : Prop :=
  (∀ p ∈ st.products, p.id < st.nextProductId) ∧
  (∀ e ∈ st.entries, e.product_id < st.nextProductId)

/-- A sound operation sequence: creation with stock 10 then a removal of 3. -/
def goodOpsW : List Op :=
  [Op.createProductOp 1 10,
   Op.recordMovement userA ⟨1, 1, 3, ChangeType.removal, "", none⟩]

theorem find_replace (l : List Product) (pid : Nat) (newp : Product)
    (hid : newp.id = pid) (h : (l.find? (fun q => q.id == pid)).isSome) :
    (l.map (fun q => if q.id == pid then newp else q)).find?
        (fun q => q.id == pid) = some newp := by
  induction l with
  | nil => simp [List.find?] at h
  | cons x xs ih =>
    simp only [List.map_cons]
    by_cases hx : x.id = pid
    · have h1 : (if x.id == pid then newp else x) = newp := by simp [hx]
      rw [h1]
      exact List.find?_cons_of_pos _ (by simp [hid])
    · have h1 : (if x.id == pid then newp else x) = x := by simp [hx]
      rw [h1, List.find?_cons_of_neg _ (by simp [hx])]
      rw [List.find?_cons_of_neg _ (by simp [hx])] at h
      exact ih h

theorem performCreateInventory_ok_eq (st : State) (a : Actor) (req : InvReq)
    (s : Shop) (p : Product)
    (hs : findShop st req.shop_id = some s)
    (hp : findProduct st req.product_id = some p)
    (hcheck : ¬(req.change_type = ChangeType.removal ∧ req.quantity > 0 ∧
        p.stock_quantity < req.quantity)) :
    performCreateInventory st a req = Except.ok
      { shops := st.shops,
        products := st.products.map (fun q =>
          if q.id == p.id then
            { p with stock_quantity :=
                viewNewStock p.stock_quantity req.quantity req.change_type }
          else q),
        entries := st.entries ++
          [⟨st.nextEntryId, req.shop_id, req.product_id, req.quantity,
            req.change_type, req.notes, some a.id⟩],
        nextProductId := st.nextProductId,
        nextEntryId := st.nextEntryId + 1 } := by
  unfold performCreateInventory
  rw [hs, hp]
  dsimp only
  rw [if_neg hcheck]
  unfold productSaveUpdate
  cases req.change_type <;> rfl

theorem performCreateInventory_insufficient_iff (st : State) (a : Actor)
    (req : InvReq) (s : Shop) (p : Product)
    (hs : findShop st req.shop_id = some s)
    (hp : findProduct st req.product_id = some p) :
    performCreateInventory st a req = Except.error InvError.insufficientStock ↔
      (req.change_type = ChangeType.removal ∧ 0 < req.quantity ∧
        p.stock_quantity < req.quantity) := by
  unfold performCreateInventory
  rw [hs, hp]
  dsimp only
  split_ifs with h
  · exact iff_of_true rfl h
  · exact iff_of_false (by simp) h

theorem ledgerSum_append (es : List Inventory) (e : Inventory) (pid : Nat) :
    ledgerSum (es ++ [e]) pid
      = ledgerSum es pid
          + (if e.product_id == pid then signedQuantity e else 0) := by
  unfold ledgerSum
  rw [List.filter_append, List.map_append, List.sum_append]
  by_cases hf : (e.product_id == pid) = true
  · simp [List.filter_cons, hf]
  · simp [List.filter_cons, hf]

theorem ledgerSum_of_fresh (es : List Inventory) (pid : Nat)
    (h : ∀ e ∈ es, e.product_id ≠ pid) : ledgerSum es pid = 0 := by
  unfold ledgerSum
  rw [List.filter_eq_nil_iff.mpr (fun e he => by simpa using h e he)]
  rfl

/-- C2 (code bug evaluation): the serializer accepts a negative quantity, the
insufficient-stock guard only fires for `quantity > 0`, and the update then
subtracts `abs(quantity)`: a `removal` of `-5` from a stock of 3 is accepted
and leaves `stock_quantity = -2 < 0`. -/
theorem removal_negative_quantity_stock_negative :
    (performCreateInventory stLowStock userA
        ⟨1, 1, -5, ChangeType.removal, "", none⟩).map
      (fun st => st.products.map Product.stock_quantity)
      = Except.ok [(-2 : Int)] := by decide

/-- C3 (counterexample): a `return` movement of 5 against a stock of 10 is
accepted but leaves the stock at 10 — the handler has no branch for it — so
the claim that `return` increases the stock by the quantity is false. -/
theorem ret_movement_stock_unchanged :
    ((performCreateInventory stMidStock userA
        ⟨1, 1, 5, ChangeType.ret, "", none⟩).map
      (fun st => st.products.map Product.stock_quantity)
      = Except.ok [(10 : Int)])
    ∧ (10 : Int) ≠ 10 + 5 :=
  ⟨by decide, by decide⟩

/-- C4 (counterexample): a `transfer` of 5 against a stock of 0 — quantity
strictly above the available stock — is accepted and does not change the
stock: the `InsufficientStock` check never fires for `transfer`. -/
theorem transfer_exceeding_stock_accepted :
    ((performCreateInventory stZeroStock userA
        ⟨1, 1, 5, ChangeType.transfer, "", none⟩).map
      (fun st => st.products.map Product.stock_quantity)
      = Except.ok [(0 : Int)])
    ∧ (5 : Int) > 0 :=
  ⟨by decide, by decide⟩

/-- C5 (counterexample): a non-staff account of shop 1 records a movement
against the shop-2 product; the handler performs no tenant check, so the call
succeeds, a ledger row is written, and the product's stock changes. -/
theorem cross_tenant_movement_accepted :
    userA.is_staff = false ∧ userA.shop_id = some 1 ∧
    (findProduct stCrossShop 1).map Product.shop_id = some 2 ∧
    (performCreateInventory stCrossShop userA
        ⟨2, 1, 5, ChangeType.addition, "", none⟩).map
      (fun st => (st.products.map Product.stock_quantity, st.entries.length))
      = Except.ok ([(15 : Int)], 1) := by
  refine ⟨by decide, by decide, by decide, by decide⟩

/-- C6 (counterexample): the detail endpoint updates an existing ledger
entry's quantity from 5 to 7 and deletes it outright — the ledger is not
append-only. -/
theorem ledger_entry_mutable_deletable :
    ((updateEntry stWithEntry staffUser 1
        ⟨1, 1, 7, ChangeType.addition, "", some 7⟩).map
      (fun st => st.entries.map Inventory.quantity) = Except.ok [(7 : Int)])
    ∧ ((deleteEntry stWithEntry staffUser 1).map
      (fun st => st.entries.length) = Except.ok 0)
    ∧ (7 : Int) ≠ 5 :=
  ⟨by decide, by decide, by decide⟩

/-- C9 (counterexample): on the creation path the notes rule is absent:
a body with `notes = "ab"` — non-empty after trimming and shorter than 3
characters — passes `OrderCreateSerializer` validation. -/
theorem orderCreate_short_notes_accepted :
    orderCreateIsValid 0 5 172800 "ab" = true ∧
    strTrim "ab" = "ab" ∧ "ab".length = 2 :=
  ⟨by decide, by decide, by decide⟩

/-- C7: creating a product resolves to `Product.save` on a fresh row: the
row is appended with `stock_quantity = initialStock`; `initialStock = 0`
adds no ledger entry; `initialStock > 0` adds exactly one `initial_stock`
entry of that quantity whose actor is the shop's owner. -/
theorem createProduct_initial_stock_ledger (st : State) (sid : Nat)
    (init : Int) (shop : Shop) (h : findShop st sid = some shop) :
    (createProduct st sid init).products
        = st.products ++ [⟨st.nextProductId, shop.id, init⟩] ∧
    (init = 0 → (createProduct st sid init).entries = st.entries) ∧
    (0 < init → (createProduct st sid init).entries
        = st.entries ++ [⟨st.nextEntryId, shop.id, st.nextProductId, init,
            ChangeType.initial_stock, "Initial stock entry", some shop.owner⟩]) := by
  simp only [createProduct, h]
  simp only [productSaveNew]
  split_ifs with h0
  · exact ⟨rfl, fun hz => absurd h0 (by omega), fun _ => rfl⟩
  · exact ⟨rfl, fun _ => rfl, fun hpos => absurd hpos h0⟩

/-- C7 witness: a concrete shop and `initialStock = 5`. -/
theorem createProduct_initial_stock_ledger_witness :
    (createProduct ⟨[⟨1, 100⟩], [], [], 1, 1⟩ 1 5).products
        = [] ++ [⟨1, 1, 5⟩] ∧
    ((5 : Int) = 0 → (createProduct ⟨[⟨1, 100⟩], [], [], 1, 1⟩ 1 5).entries = []) ∧
    ((0 : Int) < 5 → (createProduct ⟨[⟨1, 100⟩], [], [], 1, 1⟩ 1 5).entries
        = [] ++ [⟨1, 1, 1, 5, ChangeType.initial_stock,
            "Initial stock entry", some 100⟩]) :=
  createProduct_initial_stock_ledger ⟨[⟨1, 100⟩], [], [], 1, 1⟩ 1 5 ⟨1, 100⟩ rfl

/-- C8: both the update and the destroy handler of the order detail view
fail with the temporal-lock error exactly when `delivery_date ≤ now` at the
time of the call; a strictly future `delivery_date` always passes the lock
check (any later failure is a different error). -/
theorem order_temporal_lock (now : Int) (inst : Order) (req : OrderUpdateReq)
    (actor : Actor) :
    (performUpdateOrder now inst req = Except.error OrderErr.orderLocked ↔
      inst.delivery_date ≤ now) ∧
    (destroyOrder now actor inst = Except.error OrderErr.orderLocked ↔
      inst.delivery_date ≤ now) := by
  constructor
  · unfold performUpdateOrder
    split_ifs with h
    · exact iff_of_true rfl h
    · cases hs : req.shop with
      | none => exact iff_of_false (by simp) h
      | some s2 =>
        dsimp only
        split_ifs with h2
        · exact iff_of_false (by simp) h
        · exact iff_of_false (by simp) h
  · unfold destroyOrder
    split_ifs with h h2
    · exact iff_of_true rfl h
    · exact iff_of_false (by simp) h
    · exact iff_of_false (by simp) h

/-- C9 (amended): `OrderCreateSerializer` accepts a body exactly when
`total_items ∈ [1, 10000]`, the delivery date lies between 24 hours and 365
days from now, and the trimmed notes fit the 500-character column — there is
no 3-character minimum on this path. -/
theorem orderCreateIsValid_iff (now ti dd : Int) (notes : String) :
    orderCreateIsValid now ti dd notes = true ↔
      (1 ≤ ti ∧ ti ≤ 10000 ∧ now + hours24 ≤ dd ∧ dd ≤ now + days365 ∧
        (strTrim notes).length ≤ 500) := by
  have h1 : validate_total_items ti = true ↔ (1 ≤ ti ∧ ti ≤ 10000) := by
    unfold validate_total_items
    split_ifs with ha hb
    · simp
      omega
    · simp
      omega
    · simp
      omega
  have h2 : orderCreateDeliveryOk now dd = true ↔
      (now + hours24 ≤ dd ∧ dd ≤ now + days365) := by
    unfold orderCreateDeliveryOk
    split_ifs with ha hb
    · simp
      omega
    · simp
      omega
    · simp
      omega
  have h3 : orderCreateNotesOk notes = true ↔ (strTrim notes).length ≤ 500 := by
    simp [orderCreateNotesOk]
  unfold orderCreateIsValid
  rw [Bool.and_eq_true, Bool.and_eq_true, h1, h2, h3]
  tauto

/-- C10: a successful movement recording appends exactly one ledger row
whose actor is the authenticated caller, and the handler's result does not
depend on any `user_id` supplied in the request body. -/
theorem recordMovement_actor_recorded (st : State) (actor : Actor)
    (req : InvReq) (st' : State)
    (h : performCreateInventory st actor req = Except.ok st') :
    (∃ e : Inventory, st'.entries = st.entries ++ [e] ∧
      e.user_id = some actor.id ∧ e.quantity = req.quantity ∧
      e.change_type = req.change_type) ∧
    (∀ u : Option Nat,
      performCreateInventory st actor { req with user_id := u }
        = performCreateInventory st actor req) := by
  refine ⟨?_, fun u => rfl⟩
  unfold performCreateInventory at h
  cases hs : findShop st req.shop_id with
  | none =>
    rw [hs] at h
    simp at h
  | some s =>
    rw [hs] at h
    cases hp : findProduct st req.product_id with
    | none =>
      rw [hp] at h
      simp at h
    | some p =>
      rw [hp] at h
      dsimp only at h
      split_ifs at h with hc
      rw [Except.ok.injEq] at h
      subst h
      exact ⟨_, rfl, rfl, rfl, rfl⟩

/-- C10 witness: a concrete movement whose body carries `user_id = 42` still
records actor 7. -/
theorem recordMovement_actor_recorded_witness :
    (∃ e : Inventory, stAfterAddition.entries = stMidStock.entries ++ [e] ∧
      e.user_id = some userA.id ∧ e.quantity = (5 : Int) ∧
      e.change_type = ChangeType.addition) ∧
    (∀ u : Option Nat,
      performCreateInventory stMidStock userA
          { (⟨1, 1, 5, ChangeType.addition, "note", some 42⟩ : InvReq) with
              user_id := u }
        = performCreateInventory stMidStock userA
            ⟨1, 1, 5, ChangeType.addition, "note", some 42⟩) :=
  recordMovement_actor_recorded stMidStock userA
    ⟨1, 1, 5, ChangeType.addition, "note", some 42⟩ stAfterAddition (by decide)

theorem find_replace_products (l : List Product) (pid : Nat) (p newp : Product)
    (hfind : l.find? (fun q => q.id == pid) = some p) (hid : newp.id = p.id) :
    (l.map (fun q => if q.id == p.id then newp else q)).find?
        (fun q => q.id == pid) = some newp := by
  have hpid : p.id = pid := by simpa using List.find?_some hfind
  simp only [hpid]
  exact find_replace l pid newp (hid.trans hpid) (by rw [hfind]; rfl)

theorem performCreateInventory_ok_stock (st : State) (a : Actor) (req : InvReq)
    (s : Shop) (p : Product) (st' : State)
    (hs : findShop st req.shop_id = some s)
    (hp : findProduct st req.product_id = some p)
    (hok : performCreateInventory st a req = Except.ok st') :
    findProduct st' req.product_id
      = some { p with stock_quantity :=
                viewNewStock p.stock_quantity req.quantity req.change_type } := by
  by_cases hc : req.change_type = ChangeType.removal ∧ req.quantity > 0 ∧
      p.stock_quantity < req.quantity
  · rw [(performCreateInventory_insufficient_iff st a req s p hs hp).mpr hc] at hok
    simp at hok
  · rw [performCreateInventory_ok_eq st a req s p hs hp hc,
      Except.ok.injEq] at hok
    subst hok
    unfold findProduct at hp ⊢
    dsimp only
    exact find_replace_products st.products req.product_id p _ hp rfl

/-- C3 (amended): when a movement is accepted, the product's stock is
updated by `viewNewStock`: `addition` adds `abs(quantity)`, `removal`
subtracts `abs(quantity)`, `adjustment` sets it to `abs(quantity)`, and
`return` / `transfer` / `initial_stock` movements leave it unchanged. -/
theorem recordMovement_stock_effect (st : State) (a : Actor) (req : InvReq)
    (s : Shop) (p : Product) (st' : State)
    (hs : findShop st req.shop_id = some s)
    (hp : findProduct st req.product_id = some p)
    (hok : performCreateInventory st a req = Except.ok st') :
    findProduct st' req.product_id
      = some { p with stock_quantity :=
                viewNewStock p.stock_quantity req.quantity req.change_type } :=
  performCreateInventory_ok_stock st a req s p st' hs hp hok

/-- C3 witness: a concrete accepted addition of 5 against a stock of 10. -/
theorem recordMovement_stock_effect_witness :
    findProduct stAfterAddition 1
      = some ⟨1, 1, viewNewStock 10 5 ChangeType.addition⟩ :=
  recordMovement_stock_effect stMidStock userA
    ⟨1, 1, 5, ChangeType.addition, "note", some 42⟩ shop1 ⟨1, 1, 10⟩
    stAfterAddition rfl rfl (by decide)

/-- C4 (amended): with a non-negative quantity and stock, a `removal` fails
with `InsufficientStock` exactly when the quantity exceeds the stock (so a
removal of the full stock succeeds and leaves exactly 0), while a `transfer`
is never checked against the stock and leaves it unchanged. -/
theorem removal_checked_transfer_unchecked (st : State) (a : Actor)
    (req : InvReq) (s : Shop) (p : Product)
    (hs : findShop st req.shop_id = some s)
    (hp : findProduct st req.product_id = some p)
    (hq : 0 ≤ req.quantity) (hstock : 0 ≤ p.stock_quantity) :
    (req.change_type = ChangeType.removal →
      ((performCreateInventory st a req
          = Except.error InvError.insufficientStock)
        ↔ req.quantity > p.stock_quantity)) ∧
    (req.change_type = ChangeType.removal → req.quantity = p.stock_quantity →
      ∃ st', performCreateInventory st a req = Except.ok st' ∧
        findProduct st' req.product_id = some { p with stock_quantity := 0 }) ∧
    (req.change_type = ChangeType.transfer →
      ∃ st', performCreateInventory st a req = Except.ok st' ∧
        findProduct st' req.product_id = some p) := by
  refine ⟨?_, ?_, ?_⟩
  · intro hrem
    rw [performCreateInventory_insufficient_iff st a req s p hs hp]
    constructor
    · rintro ⟨-, -, hlt⟩
      exact hlt
    · intro hgt
      exact ⟨hrem, by omega, hgt⟩
  · intro hrem heq
    have hc : ¬(req.change_type = ChangeType.removal ∧ req.quantity > 0 ∧
        p.stock_quantity < req.quantity) := by
      rintro ⟨-, -, hlt⟩
      omega
    refine ⟨_, performCreateInventory_ok_eq st a req s p hs hp hc, ?_⟩
    have hzero : viewNewStock p.stock_quantity req.quantity req.change_type
        = 0 := by
      rw [hrem]
      show p.stock_quantity - |req.quantity| = 0
      rw [abs_of_nonneg hq]
      omega
    have hfp := performCreateInventory_ok_stock st a req s p _ hs hp
      (performCreateInventory_ok_eq st a req s p hs hp hc)
    rw [hfp, hzero]
  · intro htr
    have hc : ¬(req.change_type = ChangeType.removal ∧ req.quantity > 0 ∧
        p.stock_quantity < req.quantity) := by
      rintro ⟨hrem, -, -⟩
      rw [htr] at hrem
      exact ChangeType.noConfusion hrem
    refine ⟨_, performCreateInventory_ok_eq st a req s p hs hp hc, ?_⟩
    have hfp := performCreateInventory_ok_stock st a req s p _ hs hp
      (performCreateInventory_ok_eq st a req s p hs hp hc)
    rw [hfp, htr]
    rfl

/-- C4 witness: a concrete removal of the full stock of 10. -/
theorem removal_checked_transfer_unchecked_witness :
    (ChangeType.removal = ChangeType.removal →
      ((performCreateInventory stMidStock userA
            ⟨1, 1, 10, ChangeType.removal, "", none⟩
          = Except.error InvError.insufficientStock)
        ↔ (10 : Int) > 10)) ∧
    (ChangeType.removal = ChangeType.removal → (10 : Int) = 10 →
      ∃ st', performCreateInventory stMidStock userA
            ⟨1, 1, 10, ChangeType.removal, "", none⟩ = Except.ok st' ∧
        findProduct st' 1 = some ⟨1, 1, 0⟩) ∧
    (ChangeType.removal = ChangeType.transfer →
      ∃ st', performCreateInventory stMidStock userA
            ⟨1, 1, 10, ChangeType.removal, "", none⟩ = Except.ok st' ∧
        findProduct st' 1 = some ⟨1, 1, 10⟩) :=
  removal_checked_transfer_unchecked stMidStock userA
    ⟨1, 1, 10, ChangeType.removal, "", none⟩ shop1 ⟨1, 1, 10⟩
    rfl rfl (by decide) (by decide)

/-- C5 (amended): the movement handler never consults the actor's tenant or
staff flag — two actors with the same account id produce identical results —
so no cross-tenant restriction is enforced on movement recording. -/
theorem recordMovement_ignores_actor_tenant (st : State) (req : InvReq)
    (a1 a2 : Actor) (h : a1.id = a2.id) :
    performCreateInventory st a1 req = performCreateInventory st a2 req := by
  unfold performCreateInventory
  simp only [h]

/-- C5 witness: the shop-1 non-staff actor and a staff actor of shop 2 with
the same id act identically on the shop-2 product. -/
theorem recordMovement_ignores_actor_tenant_witness :
    performCreateInventory stCrossShop userA
        ⟨2, 1, 5, ChangeType.addition, "", none⟩
      = performCreateInventory stCrossShop ⟨7, some 2, true⟩
        ⟨2, 1, 5, ChangeType.addition, "", none⟩ :=
  recordMovement_ignores_actor_tenant stCrossShop
    ⟨2, 1, 5, ChangeType.addition, "", none⟩ userA ⟨7, some 2, true⟩ rfl

/-- C6 (amended): the detail endpoint does update and delete ledger entries:
a successful update replaces every writable field of the addressed entry and
a successful delete removes it, and neither touches any product row (no
stock adjustment happens on this path). -/
theorem entry_update_delete_effect (st : State) (a : Actor) (eid : Nat)
    (req : InvReq) :
    (∀ st', updateEntry st a eid req = Except.ok st' →
      st'.products = st.products ∧
      st'.entries = st.entries.map (fun e =>
        if e.id == eid then
          { e with shop_id := req.shop_id, product_id := req.product_id,
                   quantity := req.quantity, change_type := req.change_type,
                   notes := req.notes, user_id := req.user_id }
        else e)) ∧
    (∀ st', deleteEntry st a eid = Except.ok st' →
      st'.products = st.products ∧
      st'.entries = st.entries.filter (fun e => !(e.id == eid))) := by
  constructor
  · intro st' h
    unfold updateEntry at h
    cases h1 : st.entries.find? (fun e => e.id == eid && visibleShop a e.shop_id) with
    | none =>
      rw [h1] at h
      simp at h
    | some e0 =>
      rw [h1] at h
      cases h2 : findShop st req.shop_id with
      | none =>
        rw [h2] at h
        simp at h
      | some s =>
        rw [h2] at h
        cases h3 : findProduct st req.product_id with
        | none =>
          rw [h3] at h
          simp at h
        | some p =>
          rw [h3] at h
          dsimp only at h
          rw [Except.ok.injEq] at h
          subst h
          exact ⟨rfl, rfl⟩
  · intro st' h
    unfold deleteEntry at h
    cases h1 : st.entries.find? (fun e => e.id == eid && visibleShop a e.shop_id) with
    | none =>
      rw [h1] at h
      simp at h
    | some e0 =>
      rw [h1] at h
      dsimp only at h
      rw [Except.ok.injEq] at h
      subst h
      exact ⟨rfl, rfl⟩

/-- C6 witness: the concrete staff update of entry 1. -/
theorem entry_update_delete_effect_witness :
    stAfterEntryUpdate.products = stWithEntry.products ∧
    stAfterEntryUpdate.entries = stWithEntry.entries.map (fun e =>
      if e.id == 1 then
        { e with shop_id := 1, product_id := 1, quantity := (7 : Int),
                 change_type := ChangeType.addition, notes := "",
                 user_id := some 7 }
      else e) :=
  (entry_update_delete_effect stWithEntry staffUser 1
      ⟨1, 1, 7, ChangeType.addition, "", some 7⟩).1
    stAfterEntryUpdate (by decide)

/-- C1 (counterexample): after a product creation and an accepted `return`
movement the product holds 10 while the signed ledger sum is 15 — the
stock/ledger invariant does not survive every public operation. -/
theorem stockInvariant_broken_by_ret_movement :
    ((findProduct (applyOps (initState [shop1]) divergeOps) 1).map
        Product.stock_quantity = some 10) ∧
    ledgerSum (applyOps (initState [shop1]) divergeOps).entries 1 = 15 ∧
    ¬ StockInvariant (applyOps (initState [shop1]) divergeOps) :=
  ⟨by decide, by decide, by decide⟩

theorem step_createProduct (st : State) (sid : Nat) (init : Int)
    (h0 : 0 ≤ init) (hf : IdsFresh st) (hi : StockInvariant st) :
    IdsFresh (createProduct st sid init) ∧
    StockInvariant (createProduct st sid init) := by
  unfold createProduct
  cases hsh : findShop st sid with
  | none => exact ⟨hf, hi⟩
  | some shop =>
    dsimp only
    simp only [productSaveNew]
    split_ifs with hpos
    · refine ⟨⟨?_, ?_⟩, ?_⟩
      · intro p hp
        rcases List.mem_append.mp hp with h | h
        · exact Nat.lt_succ_of_lt (hf.1 p h)
        · rw [List.mem_singleton] at h
          subst h
          exact Nat.lt_succ_self _
      · intro e he
        rcases List.mem_append.mp he with h | h
        · exact Nat.lt_succ_of_lt (hf.2 e h)
        · rw [List.mem_singleton] at h
          subst h
          exact Nat.lt_succ_self _
      · intro p hp
        rcases List.mem_append.mp hp with h | h
        · rw [ledgerSum_append]
          rw [if_neg (by simp; exact Nat.ne_of_gt (hf.1 p h)), add_zero]
          exact hi p h
        · rw [List.mem_singleton] at h
          subst h
          rw [ledgerSum_append,
            ledgerSum_of_fresh st.entries st.nextProductId
              (fun e he => Nat.ne_of_lt (hf.2 e he))]
          simp [signedQuantity]
    · refine ⟨⟨?_, ?_⟩, ?_⟩
      · intro p hp
        rcases List.mem_append.mp hp with h | h
        · exact Nat.lt_succ_of_lt (hf.1 p h)
        · rw [List.mem_singleton] at h
          subst h
          exact Nat.lt_succ_self _
      · intro e he
        exact Nat.lt_succ_of_lt (hf.2 e he)
      · intro p hp
        rcases List.mem_append.mp hp with h | h
        · exact hi p h
        · rw [List.mem_singleton] at h
          subst h
          rw [ledgerSum_of_fresh st.entries st.nextProductId
            (fun e he => Nat.ne_of_lt (hf.2 e he))]
          show init = 0
          omega

theorem step_recordMovement (st : State) (a : Actor) (req : InvReq)
    (hq : 0 ≤ req.quantity)
    (hct : req.change_type = ChangeType.addition ∨
      req.change_type = ChangeType.removal)
    (hf : IdsFresh st) (hi : StockInvariant st) :
    IdsFresh (applyOp st (Op.recordMovement a req)) ∧
    StockInvariant (applyOp st (Op.recordMovement a req)) := by
  unfold applyOp
  dsimp only
  cases hres : performCreateInventory st a req with
  | error e => exact ⟨hf, hi⟩
  | ok st' =>
    unfold performCreateInventory at hres
    cases hsh : findShop st req.shop_id with
    | none =>
      rw [hsh] at hres
      simp at hres
    | some s =>
      rw [hsh] at hres
      cases hpr : findProduct st req.product_id with
      | none =>
        rw [hpr] at hres
        simp at hres
      | some p =>
        rw [hpr] at hres
        dsimp only at hres
        split_ifs at hres with hc
        rw [Except.ok.injEq] at hres
        subst hres
        have hpmem : p ∈ st.products := by
          unfold findProduct at hpr
          exact List.mem_of_find?_eq_some hpr
        have hpid : p.id = req.product_id := by
          unfold findProduct at hpr
          simpa using List.find?_some hpr
        simp only [productSaveUpdate]
        refine ⟨⟨?_, ?_⟩, ?_⟩
        · intro q hq'
          rcases List.mem_map.mp hq' with ⟨q0, hq0, rfl⟩
          dsimp only
          by_cases hcond : (q0.id == p.id) = true
          · rw [if_pos hcond]
            exact hf.1 p hpmem
          · rw [if_neg hcond]
            exact hf.1 q0 hq0
        · intro e he
          rcases List.mem_append.mp he with h | h
          · exact hf.2 e h
          · rw [List.mem_singleton] at h
            subst h
            exact hpid ▸ hf.1 p hpmem
        · intro q hq'
          rcases List.mem_map.mp hq' with ⟨q0, hq0, rfl⟩
          dsimp only
          rw [ledgerSum_append]
          by_cases hcond : (q0.id == p.id) = true
          · rw [if_pos hcond]
            rw [if_pos (by simp [hpid])]
            have hsum := hi p hpmem
            rcases hct with hA | hR
            · rw [hA]
              dsimp only [signedQuantity]
              show p.stock_quantity + |req.quantity|
                = ledgerSum st.entries p.id + req.quantity
              rw [abs_of_nonneg hq]
              omega
            · rw [hR]
              dsimp only [signedQuantity]
              show p.stock_quantity - |req.quantity|
                = ledgerSum st.entries p.id + -req.quantity
              rw [abs_of_nonneg hq]
              omega
          · rw [if_neg hcond]
            have hq0ne : q0.id ≠ p.id := by simpa using hcond
            rw [if_neg (by
              simp only [beq_iff_eq]
              rw [← hpid]
              exact fun hh => hq0ne hh.symm), add_zero]
            exact hi q0 hq0

theorem goodOps_inv (ops : List Op) (st : State)
    (hops : ∀ op ∈ ops, GoodOp op)
    (hf : IdsFresh st) (hi : StockInvariant st) :
    StockInvariant (applyOps st ops) := by
  induction ops generalizing st with
  | nil => exact hi
  | cons op rest ih =>
    have hop := hops op (List.mem_cons_self op rest)
    have hrest : ∀ o ∈ rest, GoodOp o :=
      fun o ho => hops o (List.mem_cons_of_mem _ ho)
    have hstep : IdsFresh (applyOp st op) ∧ StockInvariant (applyOp st op) := by
      cases op with
      | createProductOp sid init => exact step_createProduct st sid init hop hf hi
      | recordMovement a req => exact step_recordMovement st a req hop.1 hop.2 hf hi
      | updateProductStockOp a pid sq => exact False.elim hop
      | updateEntryOp a eid req => exact False.elim hop
      | deleteEntryOp a eid => exact False.elim hop
    simp only [applyOps, List.foldl_cons]
    exact ih (applyOp st op) hrest hstep.1 hstep.2

/-- C1 (amended): starting from a fresh store, the stock/ledger invariant
holds after any sequence of operations drawn from the sound subset —
product creations with non-negative initial stock and `addition` / `removal`
movements with non-negative quantity.  (The counterexample shows it does not
survive the other public operations.) -/
theorem stockInvariant_restricted (shops : List Shop) (ops : List Op)
    (hops : ∀ op ∈ ops, GoodOp op) :
    StockInvariant (applyOps (initState shops) ops) :=
  goodOps_inv ops (initState shops) hops
    ⟨fun p hp => absurd hp (List.not_mem_nil p),
     fun e he => absurd he (List.not_mem_nil e)⟩
    (fun p hp => absurd hp (List.not_mem_nil p))

/-- C1 witness: the invariant holds after the concrete sound sequence. -/
theorem stockInvariant_restricted_witness :
    StockInvariant (applyOps (initState [shop1]) goodOpsW) :=
  stockInvariant_restricted [shop1] goodOpsW (by decide)
